import Mathlib

/-!
Verification of the Football Chatbot resolution layer (`src/app.py`).

This file shallowly embeds the query-to-endpoint resolution logic of the
chatbot: the date extractor (`parse_date_from_query`), the match formatter
(`format_matches_data`), the direct date path (`handle_date_based_query`),
the endpoint resolver (`ask_gemini_for_endpoint`), the API call normalizer
(`make_football_api_call`), the response narrator
(`format_response_with_gemini`), and the orchestrator (`chatbot_response`).

Modelling conventions:
* Python/JSON values are the inductive `J`; Python `dict`s are ordered
  association lists with insert-or-replace assignment, as in CPython.
* A Python exception is `Except.error msg`; functions whose bodies are wrapped
  in `try/except` are total and produce the source's fallback value instead.
* The two remote collaborators (the Gemini model and football-data.org) are
  oracles: functions from the request to `Except String HttpResp`, where
  `Except.error` is a transport exception raised by `requests`.
* `datetime.now()` is an ambient `Clock` value threaded explicitly.
* Character classes (`\d`, `str.lower`, whitespace) are modelled on the ASCII
  fragment, which covers every string the claims and the source tables use.
* strftime `%Y` is modelled as zero-padded to four digits, and JSON numbers
  are restricted to integers; no claim exercises either corner.
-/

/-! ### ASCII string helpers (model of `str.lower`, `str.upper`, `in`) -/

def ascii_lower_char (c : Char) : Char :=
  if 'A' ≤ c && c ≤ 'Z' then Char.ofNat (c.toNat + 32) else c

def ascii_upper_char (c : Char) : Char :=
  if 'a' ≤ c && c ≤ 'z' then Char.ofNat (c.toNat - 32) else c

def pyLower (s : String) : String := String.mk (s.data.map ascii_lower_char)

def pyUpper (s : String) : String := String.mk (s.data.map ascii_upper_char)

/-- `list_starts_with hay pat` : does `pat` occur at the head of `hay`? -/
def list_starts_with : List Char → List Char → Bool
  | _, [] => true
  | [], _ :: _ => false
  | h :: hs, p :: ps => h == p && list_starts_with hs ps

/-- Python's substring test `pat in hay` on character lists. -/
def list_contains_sub : List Char → List Char → Bool
  | [], pat => pat.isEmpty
  | h :: t, pat => list_starts_with (h :: t) pat || list_contains_sub t pat

/-- Python's substring test `pat in hay` on strings. -/
def strContains (hay pat : String) : Bool := list_contains_sub hay.data pat.data

/-- Python's `s.startswith(pre)`. -/
def pyStartsWith (s pre : String) : Bool := list_starts_with s.data pre.data

/-- First `some` produced by `f` over the list, in order. -/
def firstSome {α β : Type} (l : List α) (f : α → Option β) : Option β :=
  match l with
  | [] => none
  | a :: t => match f a with | some b => some b | none => firstSome t f

/-! ### The JSON / Python-value universe -/

/-- A JSON value / Python object as passed around by `app.py`.
Numbers are integers (see header). Objects are ordered key-value lists. -/
inductive J where
  | null : J
  | bool : Bool → J
  | num : Int → J
  | str : String → J
  | arr : List J → J
  | obj : List (String × J) → J

/-- Python truthiness of a value (`if x:`). -/
def truthy : J → Bool
  | .null => false
  | .bool b => b
  | .num n => n != 0
  | .str s => !s.isEmpty
  | .arr l => !l.isEmpty
  | .obj l => !l.isEmpty

/-- CPython dict assignment `d[k] = v`: replace in place if the key exists,
else append at the end. -/
def dictSet : List (String × J) → String → J → List (String × J)
  | [], k, v => [(k, v)]
  | (k0, v0) :: t, k, v =>
    if k0 == k then (k0, v) :: t else (k0, v0) :: dictSet t k v

def lookupField : List (String × J) → String → Option J
  | [], _ => none
  | (k0, v0) :: t, k => if k0 == k then some v0 else lookupField t k

/-- Does the association list carry the key? -/
def hasField (l : List (String × J)) (k : String) : Bool :=
  (lookupField l k).isSome

/-- Python subscript `x[k]` with a string key: `KeyError` when missing,
`TypeError` on non-dicts (strings/lists take integer indices). -/
def pySub : J → String → Except String J
  | .obj l, k =>
    match lookupField l k with
    | some v => .ok v
    | none => .error ("KeyError: " ++ k)
  | _, k => .error ("TypeError: value is not subscriptable by string key " ++ k)

/-- Python subscript `x[i]` with an integer index (lists only; that is the only
integer-indexing the source performs). -/
def pyIndex : J → Nat → Except String J
  | .arr l, i =>
    match l.get? i with
    | some v => .ok v
    | none => .error "IndexError: list index out of range"
  | _, _ => .error "TypeError: value is not indexable"

/-- Python membership `k in x` for a string `k`: dict keys, list elements,
substring of a string; `TypeError` otherwise. -/
def pyIn (k : String) : J → Except String Bool
  | .obj l => .ok (hasField l k)
  | .arr l => .ok (l.any (fun x => match x with | J.str s => s == k | _ => false))
  | .str s => .ok (strContains s k)
  | _ => .error "TypeError: argument is not a container"

/-- Python iteration `for x in v`: list elements, dict keys, string characters. -/
def pyIter : J → Except String (List J)
  | .arr l => .ok l
  | .obj l => .ok (l.map (fun kv => J.str kv.1))
  | .str s => .ok (s.data.map (fun c => J.str (String.mk [c])))
  | _ => .error "TypeError: value is not iterable"

/-- Python `d.items()`: fields of a dict, `AttributeError` otherwise. -/
def pyItems : J → Except String (List (String × J))
  | .obj l => .ok l
  | _ => .error "AttributeError: value has no attribute items"

/-- Python `d.get(k, default)`: `AttributeError` on non-dicts. -/
def jgetD : J → String → J → Except String J
  | .obj l, k, dflt => .ok ((lookupField l k).getD dflt)
  | _, _, _ => .error "AttributeError: value has no attribute get"

/-- Python dict assignment `d[k] = v` as used on formatter outputs
(`TypeError` on non-dicts). -/
def jsetE : J → String → J → Except String J
  | .obj l, k, v => .ok (J.obj (dictSet l k v))
  | _, _, _ => .error "TypeError: value does not support item assignment"

/-- Python `str(x)` / f-string rendering for the values the source interpolates
(scores are numbers or null). -/
def pyStr : J → String
  | .null => "None"
  | .bool true => "True"
  | .bool false => "False"
  | .num n => toString n
  | .str s => s
  | .arr _ => "<list>"
  | .obj _ => "<dict>"

/-! ### `json.dumps` (default separators, `ensure_ascii=False`) -/

def hex_digit (n : Nat) : Char :=
  if n < 10 then Char.ofNat (48 + n) else Char.ofNat (87 + n)

def hex4 (n : Nat) : String :=
  String.mk [hex_digit (n / 4096 % 16), hex_digit (n / 256 % 16),
             hex_digit (n / 16 % 16), hex_digit (n % 16)]

/-- Does `json.dumps` escape this character (`ensure_ascii=False`)? -/
def needs_json_escape (c : Char) : Bool :=
  c == '"' || c == '\\' || c.toNat < 32

def escape_char (c : Char) : String :=
  if c = '"' then "\\\""
  else if c = '\\' then "\\\\"
  else if c = '\n' then "\\n"
  else if c = '\r' then "\\r"
  else if c = '\t' then "\\t"
  else if c.toNat = 8 then "\\b"
  else if c.toNat = 12 then "\\f"
  else if c.toNat < 32 then "\\u" ++ hex4 c.toNat
  else String.mk [c]

/-- String-body escaping as `json.dumps` performs it (with a fast path for
strings needing no escapes, which is also what CPython's C scanner does). -/
def json_escape (s : String) : String :=
  if s.data.all (fun c => !needs_json_escape c) then s
  else String.join (s.data.map escape_char)

mutual

/-- `json.dumps(v, ensure_ascii=False)` with the default separators. -/
def json_dumps : J → String
  | .null => "null"
  | .bool true => "true"
  | .bool false => "false"
  | .num n => toString n
  | .str s => "\"" ++ json_escape s ++ "\""
  | .arr l => "[" ++ String.intercalate ", " (json_dumps_list l) ++ "]"
  | .obj l => "\x7b" ++ String.intercalate ", " (json_dumps_fields l) ++ "\x7d"

def json_dumps_list : List J → List String
  | [] => []
  | j :: t => json_dumps j :: json_dumps_list t

def json_dumps_fields : List (String × J) → List String
  | [] => []
  | kv :: t => ("\"" ++ json_escape kv.1 ++ "\": " ++ json_dumps kv.2) :: json_dumps_fields t

end

/-! ### `json.loads` (strict mode, integer numbers) -/

/-- JSON whitespace as `json.loads` skips it. -/
def json_ws (c : Char) : Bool := c == ' ' || c == '\t' || c == '\n' || c == '\r'

def skip_ws : List Char → List Char
  | [] => []
  | c :: t => if json_ws c then skip_ws t else c :: t

def hex_val (c : Char) : Option Nat :=
  if '0' ≤ c && c ≤ '9' then some (c.toNat - 48)
  else if 'a' ≤ c && c ≤ 'f' then some (c.toNat - 87)
  else if 'A' ≤ c && c ≤ 'F' then some (c.toNat - 55)
  else none

/-- Body of a JSON string after the opening quote: returns the decoded content
and the characters after the closing quote.  Strict: raw control characters
are rejected, as `json.loads` does by default. -/
def pj_string : List Char → Option (String × List Char)
  | [] => none
  | '"' :: rest => some ("", rest)
  | '\\' :: 'u' :: a :: b :: c :: d :: rest =>
    (match hex_val a, hex_val b, hex_val c, hex_val d with
     | some va, some vb, some vc, some vd =>
       (pj_string rest).map
         (fun p => (String.mk [Char.ofNat (((va * 16 + vb) * 16 + vc) * 16 + vd)] ++ p.1, p.2))
     | _, _, _, _ => none)
  | '\\' :: '"' :: rest => (pj_string rest).map (fun p => ("\"" ++ p.1, p.2))
  | '\\' :: '\\' :: rest => (pj_string rest).map (fun p => ("\\" ++ p.1, p.2))
  | '\\' :: '/' :: rest => (pj_string rest).map (fun p => ("/" ++ p.1, p.2))
  | '\\' :: 'b' :: rest => (pj_string rest).map (fun p => (String.mk [Char.ofNat 8] ++ p.1, p.2))
  | '\\' :: 'f' :: rest => (pj_string rest).map (fun p => (String.mk [Char.ofNat 12] ++ p.1, p.2))
  | '\\' :: 'n' :: rest => (pj_string rest).map (fun p => ("\n" ++ p.1, p.2))
  | '\\' :: 'r' :: rest => (pj_string rest).map (fun p => ("\r" ++ p.1, p.2))
  | '\\' :: 't' :: rest => (pj_string rest).map (fun p => ("\t" ++ p.1, p.2))
  | '\\' :: _ :: _ => none
  | '\\' :: [] => none
  | c :: rest =>
    if c.toNat < 32 then none
    else (pj_string rest).map (fun p => (String.mk [c] ++ p.1, p.2))

def take_digit_run : List Char → List Char × List Char
  | [] => ([], [])
  | c :: t =>
    if c.isDigit then
      let p := take_digit_run t
      (c :: p.1, p.2)
    else ([], c :: t)

def digit_run_val (ds : List Char) : Nat :=
  ds.foldl (fun acc c => acc * 10 + (c.toNat - 48)) 0

/-- A JSON integer literal per the grammar `-? (0 | [1-9][0-9]*)`.
Fractions/exponents are outside the modelled universe (see header). -/
def pj_number : List Char → Option (J × List Char)
  | cs =>
    let (neg, cs1) : Bool × List Char := match cs with
      | '-' :: r => (true, r)
      | _ => (false, cs)
    match take_digit_run cs1 with
    | ([], _) => none
    | ('0' :: _ :: _, _) => none
    | (ds, rest) =>
      let v : Int := (digit_run_val ds : Nat)
      some (J.num (if neg then -v else v), rest)

mutual

def pj_value (fuel : Nat) (cs : List Char) : Option (J × List Char) :=
  match fuel with
  | 0 => none
  | f + 1 =>
    match skip_ws cs with
    | [] => none
    | c :: rest =>
      if c = '"' then (pj_string rest).map (fun p => (J.str p.1, p.2))
      else if c = '[' then
        match skip_ws rest with
        | ']' :: r2 => some (J.arr [], r2)
        | r2 =>
          match pj_value f r2 with
          | some (v, r3) => pj_arr_items f [v] r3
          | none => none
      else if c.toNat = 123 then
        match skip_ws rest with
        | '"' :: r2 =>
          (match pj_string r2 with
           | some (k, r3) => pj_obj_value f [] k r3
           | none => none)
        | r2 => if list_starts_with r2 [Char.ofNat 125] then some (J.obj [], r2.drop 1) else none
      else if list_starts_with (c :: rest) ['t', 'r', 'u', 'e'] then
        some (J.bool true, (c :: rest).drop 4)
      else if list_starts_with (c :: rest) ['f', 'a', 'l', 's', 'e'] then
        some (J.bool false, (c :: rest).drop 5)
      else if list_starts_with (c :: rest) ['n', 'u', 'l', 'l'] then
        some (J.null, (c :: rest).drop 4)
      else pj_number (c :: rest)

def pj_arr_items (fuel : Nat) (acc : List J) (cs : List Char) : Option (J × List Char) :=
  match fuel with
  | 0 => none
  | f + 1 =>
    match skip_ws cs with
    | ']' :: r => some (J.arr acc, r)
    | ',' :: r =>
      (match pj_value f r with
       | some (v, r2) => pj_arr_items f (acc ++ [v]) r2
       | none => none)
    | _ => none

/-- After an object key: expects `: value`, then `,` or the closing brace. -/
def pj_obj_value (fuel : Nat) (acc : List (String × J)) (k : String) (cs : List Char) :
    Option (J × List Char) :=
  match fuel with
  | 0 => none
  | f + 1 =>
    match skip_ws cs with
    | ':' :: r =>
      (match pj_value f r with
       | some (v, r2) =>
         let acc2 := dictSet acc k v
         (match skip_ws r2 with
          | ',' :: r3 =>
            (match skip_ws r3 with
             | '"' :: r4 =>
               (match pj_string r4 with
                | some (k2, r5) => pj_obj_value f acc2 k2 r5
                | none => none)
             | _ => none)
          | r3 =>
            if list_starts_with r3 [Char.ofNat 125] then some (J.obj acc2, r3.drop 1) else none)
       | none => none)
    | _ => none

end

/-- `json.loads`: parse one value and require only whitespace to remain. -/
def jsonParse (s : String) : Option J :=
  match pj_value (4 * s.length + 16) s.data with
  | some (v, rest) => if (skip_ws rest).isEmpty then some v else none
  | none => none

/-! ### Calendar dates (`datetime.date` fragment) -/

/-- A calendar date; `datetime.now()` truncated to its date components
(the time of day never influences the modelled logic: only `timedelta(days=k)`
and `%Y-%m-%d` formatting are applied to it). -/
structure Date where
  year : Int
  month : Nat
  day : Nat
deriving DecidableEq, Repr

def isLeapYear (y : Nat) : Bool :=
  y % 4 == 0 && (y % 100 != 0 || y % 400 == 0)

def daysInMonth (y : Nat) (m : Nat) : Nat :=
  if m = 2 then (if isLeapYear y then 29 else 28)
  else if m = 4 ∨ m = 6 ∨ m = 9 ∨ m = 11 then 30
  else 31

/-- Days since 1970-01-01 (Howard Hinnant's `days_from_civil`). -/
def days_from_civil (d : Date) : Int :=
  let y : Int := if d.month ≤ 2 then d.year - 1 else d.year
  let era : Int := (if 0 ≤ y then y else y - 399).tdiv 400
  let yoe : Nat := (y - era * 400).toNat
  let mp : Nat := if 2 < d.month then d.month - 3 else d.month + 9
  let doy : Nat := (153 * mp + 2) / 5 + d.day - 1
  let doe : Nat := yoe * 365 + yoe / 4 - yoe / 100 + doy
  era * 146097 + (doe : Int) - 719468

/-- Inverse of `days_from_civil` (Hinnant's `civil_from_days`). -/
def civil_from_days (z0 : Int) : Date :=
  let z : Int := z0 + 719468
  let era : Int := (if 0 ≤ z then z else z - 146096).tdiv 146097
  let doe : Nat := (z - era * 146097).toNat
  let yoe : Nat := (doe - doe / 1460 + doe / 36524 - doe / 146096) / 365
  let y : Int := (yoe : Int) + era * 400
  let doy : Nat := doe - (365 * yoe + yoe / 4 - yoe / 100)
  let mp : Nat := (5 * doy + 2) / 153
  let d : Nat := doy - (153 * mp + 2) / 5 + 1
  let m : Nat := if mp < 10 then mp + 3 else mp - 9
  { year := if m ≤ 2 then y + 1 else y, month := m, day := d }

/-- `date + timedelta(days = n)`. -/
def addDays (d : Date) (n : Int) : Date := civil_from_days (days_from_civil d + n)

def pad2 (n : Nat) : String := if n < 10 then "0" ++ toString n else toString n

def pad4 (y : Int) : String :=
  if 0 ≤ y then
    (if y < 10 then "000" else if y < 100 then "00" else if y < 1000 then "0" else "")
      ++ toString y
  else toString y

/-- `date.strftime("%Y-%m-%d")` (year zero-padded; see header). -/
def strftime_ymd (d : Date) : String :=
  pad4 d.year ++ "-" ++ pad2 d.month ++ "-" ++ pad2 d.day

/-! ### `datetime.strptime` for the five formats the source uses

CPython's `_strptime` compiles each directive to a regex fragment —
`%Y` → `\d{4}`, `%y` → `\d{2}`, `%m` → `1[0-2]|0[1-9]|[1-9]`,
`%d` → `3[01]|[12]\d|0[1-9]|[1-9]` — matches the value from its start with
ordered-alternation backtracking, requires the whole value to be consumed,
and finally validates the day against the month (raising `ValueError`
otherwise, as does a year outside `MINYEAR..MAXYEAR`). -/

def digit_val (c : Char) : Nat := c.toNat - 48

/-- `%Y`: exactly four digits. -/
def fieldY4 : List Char → List (Nat × List Char)
  | a :: b :: c :: d :: rest =>
    if a.isDigit && b.isDigit && c.isDigit && d.isDigit then
      [(digit_val a * 1000 + digit_val b * 100 + digit_val c * 10 + digit_val d, rest)]
    else []
  | _ => []

/-- `%y`: exactly two digits, 00-68 → 2000s, 69-99 → 1900s. -/
def fieldY2 : List Char → List (Nat × List Char)
  | a :: b :: rest =>
    if a.isDigit && b.isDigit then
      let v := digit_val a * 10 + digit_val b
      [(if v ≤ 68 then 2000 + v else 1900 + v, rest)]
    else []
  | _ => []

/-- `%m`: `1[0-2] | 0[1-9] | [1-9]`, alternatives in regex order. -/
def fieldM (cs : List Char) : List (Nat × List Char) :=
  (match cs with
   | a :: b :: rest =>
     (if a = '1' && '0' ≤ b && b ≤ '2' then [(10 + digit_val b, rest)] else []) ++
     (if a = '0' && '1' ≤ b && b ≤ '9' then [(digit_val b, rest)] else [])
   | _ => []) ++
  (match cs with
   | a :: rest => if '1' ≤ a && a ≤ '9' then [(digit_val a, rest)] else []
   | _ => [])

/-- `%d`: `3[01] | [12]\d | 0[1-9] | [1-9]`, alternatives in regex order. -/
def fieldD (cs : List Char) : List (Nat × List Char) :=
  (match cs with
   | a :: b :: rest =>
     (if a = '3' && ('0' ≤ b && b ≤ '1') then [(30 + digit_val b, rest)] else []) ++
     (if ('1' ≤ a && a ≤ '2') && b.isDigit then [(digit_val a * 10 + digit_val b, rest)] else []) ++
     (if a = '0' && '1' ≤ b && b ≤ '9' then [(digit_val b, rest)] else [])
   | _ => []) ++
  (match cs with
   | a :: rest => if '1' ≤ a && a ≤ '9' then [(digit_val a, rest)] else []
   | _ => [])

/-- Run a three-field format `f1 s1 f2 s2 f3` against the whole value with
backtracking over the ordered alternatives, requiring full consumption. -/
def runFmt3 (f1 : List Char → List (Nat × List Char)) (s1 : Char)
    (f2 : List Char → List (Nat × List Char)) (s2 : Char)
    (f3 : List Char → List (Nat × List Char)) (cs : List Char) :
    Option (Nat × Nat × Nat) :=
  firstSome (f1 cs) fun p1 =>
    match p1.2 with
    | c :: r1 =>
      if c = s1 then
        firstSome (f2 r1) fun p2 =>
          match p2.2 with
          | c2 :: r2 =>
            if c2 = s2 then
              firstSome (f3 r2) fun p3 =>
                if p3.2.isEmpty then some (p1.1, p2.1, p3.1) else none
            else none
          | [] => none
      else none
    | [] => none

/-- The `datetime` constructor's validation: month and day ranges against the
calendar, year within `MINYEAR..MAXYEAR`. -/
def mkValidDate (y m d : Nat) : Option Date :=
  if 1 ≤ y ∧ y ≤ 9999 ∧ 1 ≤ m ∧ m ≤ 12 ∧ 1 ≤ d ∧ d ≤ daysInMonth y m then
    some { year := (y : Int), month := m, day := d }
  else none

/-- The five strptime format strings appearing in `app.py`. -/
inductive Strf where
  | Ymd        -- "%Y-%m-%d"
  | dmY        -- "%d-%m-%Y"
  | dmY_slash  -- "%d/%m/%Y"
  | dmy_slash  -- "%d/%m/%y"
  | mdY_slash  -- "%m/%d/%Y"
deriving DecidableEq, Repr

/-- `datetime.strptime(s, fmt)` for the formats above; `none` is `ValueError`. -/
def pyStrptime (s : String) (f : Strf) : Option Date :=
  let cs := s.data
  let ymd : Option (Nat × Nat × Nat) :=
    match f with
    | .Ymd => runFmt3 fieldY4 '-' fieldM '-' fieldD cs
    | .dmY => (runFmt3 fieldD '-' fieldM '-' fieldY4 cs).map (fun t => (t.2.2, t.2.1, t.1))
    | .dmY_slash => (runFmt3 fieldD '/' fieldM '/' fieldY4 cs).map (fun t => (t.2.2, t.2.1, t.1))
    | .dmy_slash => (runFmt3 fieldD '/' fieldM '/' fieldY2 cs).map (fun t => (t.2.2, t.2.1, t.1))
    | .mdY_slash => (runFmt3 fieldM '/' fieldD '/' fieldY4 cs).map (fun t => (t.2.2, t.1, t.2.1))
  ymd.bind fun t => mkValidDate t.1 t.2.1 t.2.2

/-! ### Static tables and configuration from `app.py` -/

def FOOTBALL_BASE_URL : String := "https://api.football-data.org/v4"

/-- Competition codes mapping (for common leagues) — `COMPETITION_CODES`. -/
def COMPETITION_CODES : List (String × String) :=
  [("premier league", "PL"), ("la liga", "PD"), ("bundesliga", "BL1"),
   ("serie a", "SA"), ("ligue 1", "FL1"), ("eredivisie", "DED"),
   ("primeira liga", "PPL"), ("championship", "ELC"), ("champions league", "CL"),
   ("uefa champions league", "CL"), ("europa league", "EL"),
   ("uefa europa league", "EL"), ("world cup", "WC"), ("fifa world cup", "WC"),
   ("european championship", "EC"), ("uefa european championship", "EC"),
   ("copa libertadores", "CLI")]

/-- Status mapping for natural language to API format — `STATUS_MAPPING`. -/
def STATUS_MAPPING : List (String × String) :=
  [("scheduled", "SCHEDULED"), ("live", "LIVE"), ("in play", "IN_PLAY"),
   ("paused", "PAUSED"), ("finished", "FINISHED"), ("postponed", "POSTPONED"),
   ("suspended", "SUSPENDED"), ("cancelled", "CANCELLED")]

/-- Time-related keywords — `TIME_KEYWORDS`, in CPython dict insertion order. -/
def TIME_KEYWORDS : List (String × Int) :=
  [("yesterday", -1), ("today", 0), ("tomorrow", 1)]

/-- Ordered table lookup (`dict[k]` on the static string tables). -/
def lookupTable : List (String × String) → String → Option String
  | [], _ => none
  | (k0, v0) :: t, k => if k0 == k then some v0 else lookupTable t k

/-! ### The date regexes of `parse_date_from_query`

Each pattern is a sequence of fixed-width digit runs and literal separators;
`re.search` finds the leftmost such substring (no boundary assertions, so the
run may abut further digits). -/

inductive Tok where
  | dig : Nat → Tok
  | lit : Char → Tok

/-- Consume exactly `n` ASCII digits. -/
def takeDigits : Nat → List Char → Option (List Char × List Char)
  | 0, cs => some ([], cs)
  | _ + 1, [] => none
  | n + 1, c :: cs =>
    if c.isDigit then (takeDigits n cs).map (fun p => (c :: p.1, p.2)) else none

/-- Match the token sequence at the start of `cs`; return the matched text. -/
def matchToksAt : List Tok → List Char → Option (List Char)
  | [], _ => some []
  | .dig n :: ts, cs =>
    (takeDigits n cs).bind fun p => (matchToksAt ts p.2).map (fun m => p.1 ++ m)
  | .lit c :: ts, cs =>
    match cs with
    | [] => none
    | x :: r => if x = c then (matchToksAt ts r).map (fun m => c :: m) else none

/-- `re.search`: the match at the leftmost position, if any. -/
def searchToks (p : List Tok) : List Char → Option (List Char)
  | [] => matchToksAt p []
  | c :: t =>
    match matchToksAt p (c :: t) with
    | some m => some m
    | none => searchToks p t

/-- The four entries of `date_patterns`, in source order. -/
inductive DatePat where
  | ymd         -- r'(\d{4}-\d{2}-\d{2})'
  | dmy_dash    -- r'(\d{2}-\d{2}-\d{4})'
  | dmy_slash4  -- r'(\d{2}/\d{2}/\d{4})'
  | dmy_slash2  -- r'(\d{2}/\d{2}/\d{2})'
deriving DecidableEq, Repr

def patToks : DatePat → List Tok
  | .ymd => [.dig 4, .lit '-', .dig 2, .lit '-', .dig 2]
  | .dmy_dash => [.dig 2, .lit '-', .dig 2, .lit '-', .dig 4]
  | .dmy_slash4 => [.dig 2, .lit '/', .dig 2, .lit '/', .dig 4]
  | .dmy_slash2 => [.dig 2, .lit '/', .dig 2, .lit '/', .dig 2]

def date_patterns : List DatePat := [.ymd, .dmy_dash, .dmy_slash4, .dmy_slash2]

/-- The `if pattern == r'…'/elif` dispatch inside the pattern loop, pairing
each regex with its strptime format. -/
def strptime_for_pattern (p : DatePat) (date_str : String) : Option Date :=
  if p = .ymd then pyStrptime date_str .Ymd
  else if p = .dmy_dash then pyStrptime date_str .dmY
  else if p = .dmy_slash4 then pyStrptime date_str .dmY_slash
  else pyStrptime date_str .dmy_slash

/-- The explicit-date pattern loop of `parse_date_from_query`: first match of
each pattern in order; a match that fails to parse falls through to the next
pattern (`except ValueError: continue`). -/
def try_date_patterns : List DatePat → String → Option String × Option String
  | [], _ => (none, none)
  | p :: rest, query =>
    match searchToks (patToks p) query.data with
    | none => try_date_patterns rest query
    | some m =>
      match strptime_for_pattern p (String.mk m) with
      | some d => (some (strftime_ymd d), some "specific")
      | none => try_date_patterns rest query

/-- `parse_date_from_query(query)`: relative keywords first (first table entry
contained in the lowercased query wins), then the explicit patterns. -/
def parse_date_from_query (now : Date) (query : String) : Option String × Option String :=
  let query_lower := pyLower query
  match TIME_KEYWORDS.find? (fun kv => strContains query_lower kv.1) with
  | some kv => (some (strftime_ymd (addDays now kv.2)), some "relative")
  | none => try_date_patterns date_patterns query

/-! ### The remote collaborators -/

/-- An HTTP response as the source observes it: the status code, the result of
`.json()` (`Except.error` when the body fails to parse), and `.text`. -/
structure HttpResp where
  status : Nat
  jsonBody : Except String J
  text : String

/-- The football-data.org collaborator: `requests.get(url, headers, params)`.
`Except.error` is a transport exception. -/
def FbOracle : Type := String → List (String × String) → Except String HttpResp

/-- The Gemini collaborator: `requests.post(url, json={prompt})`. -/
def GmOracle : Type := String → Except String HttpResp

/-- The ambient clock: `datetime.now()` as a date, and its
`"%Y-%m-%d %H:%M:%S"` rendering used inside the resolver prompt. -/
structure Clock where
  today : Date
  stamp : String

/-- `requests` raises `HTTPError` for 4xx/5xx statuses; the message text is a
modelled stand-in (no claim concerns its exact wording). -/
def http_error_msg (status : Nat) : String :=
  toString status ++ " Error for url"

def raise_for_status (r : HttpResp) : Except String Unit :=
  if 400 ≤ r.status ∧ r.status < 600 then .error (http_error_msg r.status) else .ok ()

/-- `get_matches_by_date(date_str)`: GET `/matches?date=…`; non-200 yields an
inline error object, transport exceptions and body-parse failures propagate
(the function has no `try`). -/
def get_matches_by_date (fb : FbOracle) (date_str : String) : Except String J :=
  match fb (FOOTBALL_BASE_URL ++ "/matches") [("date", date_str)] with
  | .error e => .error e
  | .ok r =>
    if r.status == 200 then r.jsonBody
    else .ok (J.obj [("error", J.str ("API Error: " ++ toString r.status))])

/-! ### `format_matches_data` -/

/-- The guard `not matches_data or 'matches' not in matches_data or 'error' in
matches_data`, with Python's short-circuit evaluation. -/
def fmd_guard (md : J) : Except String Bool :=
  if !truthy md then .ok true
  else
    match pyIn "matches" md with
    | .error e => .error e
    | .ok hasMatches =>
      if !hasMatches then .ok true
      else pyIn "error" md

/-- Effectful map over a list, failing at the first error — the semantics of a
Python `for` loop whose body may raise. -/
def mapExcept {α β : Type} (f : α → Except String β) : List α → Except String (List β)
  | [] => .ok []
  | a :: t =>
    match f a with
    | .error e => .error e
    | .ok b =>
      match mapExcept f t with
      | .error e => .error e
      | .ok bs => .ok (b :: bs)

/-- One iteration of the `for match in matches_data['matches']` loop: build the
summary dict, then attach the score.  The score is the f-string
`"{home} - {away}"` when a `score` key exists and the full-time *home* value
is not `None`; otherwise the literal `'Not played yet'`.  Missing required
keys raise (`KeyError`), aborting the whole call. -/
def format_one_match (m : J) : Except String J := do
  let comp ← pySub m "competition" >>= (pySub · "name")
  let home ← pySub m "homeTeam" >>= (pySub · "shortName")
  let away ← pySub m "awayTeam" >>= (pySub · "shortName")
  let status ← pySub m "status"
  let date ← pySub m "utcDate"
  let base := [("competition", comp), ("homeTeam", home), ("awayTeam", away),
               ("status", status), ("date", date)]
  let hasScore ← pyIn "score" m
  if hasScore then do
    let ft ← pySub m "score" >>= (pySub · "fullTime")
    let h ← pySub ft "home"
    match h with
    | J.null => pure (J.obj (base ++ [("score", J.str "Not played yet")]))
    | _ => do
      let a ← pySub ft "away"
      pure (J.obj (base ++ [("score", J.str (pyStr h ++ " - " ++ pyStr a))]))
  else pure (J.obj (base ++ [("score", J.str "Not played yet")]))

/-- `format_matches_data(matches_data)`. -/
def format_matches_data (md : J) : Except String J :=
  match fmd_guard md with
  | .error e => .error e
  | .ok true => .ok (J.obj [("error", J.str "No matches found or error in data")])
  | .ok false =>
    match pySub md "matches" with
    | .error e => .error e
    | .ok msJ =>
      match pyIter msJ with
      | .error e => .error e
      | .ok ms =>
        match mapExcept format_one_match ms with
        | .error e => .error e
        | .ok fs => .ok (J.obj [("matches", J.arr fs), ("count", J.num fs.length)])

/-! ### `handle_date_based_query` (Direct Date Path) -/

/-- `handle_date_based_query(query)`: `Except.ok J.null` models the Python
`return None` that routes the orchestrator to the resolver path (`if not
date_str` also catches an empty string). -/
def handle_date_based_query (fb : FbOracle) (now : Date) (query : String) :
    Except String J :=
  match parse_date_from_query now query with
  | (none, _) => .ok J.null
  | (some date_str, date_type) =>
    if date_str = "" then .ok J.null
    else
      match get_matches_by_date fb date_str with
      | .error e => .error e
      | .ok matches_data =>
        match format_matches_data matches_data with
        | .error e => .error e
        | .ok formatted =>
          if date_type == some "relative" then
            match TIME_KEYWORDS.find? (fun kv => strContains (pyLower query) kv.1) with
            | some kv => jsetE formatted "date_context" (J.str kv.1)
            | none => .ok formatted
          else jsetE formatted "date_context" (J.str date_str)

/-! ### `ask_gemini_for_endpoint` (Endpoint Resolver) -/

def is_py_ws (c : Char) : Bool :=
  c == ' ' || c == '\t' || c == '\n' || c == '\r' ||
  c.toNat = 11 || c.toNat = 12

def drop_leading_ws (cs : List Char) : List Char :=
  match cs with
  | [] => []
  | c :: t => if is_py_ws c then drop_leading_ws t else c :: t

def trim_ws (cs : List Char) : List Char :=
  (drop_leading_ws (drop_leading_ws cs.reverse).reverse)

/-- The characters strictly before the first occurrence of `pat`, when `pat`
occurs. -/
def split_at_first : List Char → List Char → Option (List Char × List Char)
  | [], pat => if pat.isEmpty then some ([], []) else none
  | c :: t, pat =>
    if list_starts_with (c :: t) pat then some ([], (c :: t).drop pat.length)
    else (split_at_first t pat).map (fun p => (c :: p.1, p.2))

/-- `re.search(r'```json\s*(.*?)\s*```', t, re.DOTALL)`: the text between the
first ` ```json ` fence and the next ` ``` `, trimmed of whitespace.  (A later
` ```json ` cannot succeed when the first finds no closing fence, since the
later fence's own backticks would close the first.) -/
def fenced_json_capture (t : List Char) : Option (List Char) :=
  match split_at_first t ['`', '`', '`', 'j', 's', 'o', 'n'] with
  | none => none
  | some p =>
    match split_at_first p.2 ['`', '`', '`'] with
    | none => none
    | some q => some (trim_ws q.1)

def first_idx_of (c : Char) : List Char → Option Nat
  | [] => none
  | x :: t =>
    if x = c then some 0 else (first_idx_of c t).map (· + 1)

def last_idx_of (c : Char) (cs : List Char) : Option Nat :=
  (first_idx_of c cs.reverse).map (fun i => cs.length - 1 - i)

/-- `re.search(r'({.*})', t, re.DOTALL)`: greedy, so from the first `{` that
precedes the last `}` through that last `}`. -/
def brace_span_capture (t : List Char) : Option (List Char) :=
  match first_idx_of (Char.ofNat 123) t, last_idx_of (Char.ofNat 125) t with
  | some i, some j => if i < j then some ((t.drop i).take (j - i + 1)) else none
  | _, _ => none

/-- The markdown-stripping step of `ask_gemini_for_endpoint`: fenced block
first, else brace span, else the raw text unchanged. -/
def extract_json_text (t : String) : String :=
  match fenced_json_capture t.data with
  | some m => String.mk m
  | none =>
    match brace_span_capture t.data with
    | some m => String.mk m
    | none => t

/-- The resolver prompt.  The static middle (endpoint catalog, team directory,
competition table, worked examples) is abbreviated as a constant: no claim
depends on the prompt's content, only on it being the request sent to the
model collaborator. -/
def ask_prompt (current_datetime query : String) : String :=
  "You are an expert football data API assistant. [endpoint catalog and team directory omitted] Current Date and Time: "
    ++ current_datetime ++ " User query: \"" ++ query ++ "\""

/-- `result["candidates"][0]["content"]["parts"][0]["text"]`. -/
def gemini_text_of (body : J) : Except String J :=
  pySub body "candidates" >>= (pyIndex · 0) >>= (pySub · "content")
    >>= (pySub · "parts") >>= (pyIndex · 0) >>= (pySub · "text")

/-- `str` coercion point: `re.search` raises `TypeError` on a non-string. -/
def asStrE : J → Except String String
  | .str s => .ok s
  | _ => .error "TypeError: expected string or bytes-like object"

/-- `ask_gemini_for_endpoint(query)`: everything (transport, status, response
shape, JSON decoding) sits inside one `try`, whose `except` returns `None`. -/
def ask_gemini_for_endpoint (gm : GmOracle) (clock : Clock) (query : String) : Option J :=
  match gm (ask_prompt clock.stamp query) with
  | .error _ => none
  | .ok r =>
    match raise_for_status r with
    | .error _ => none
    | .ok _ =>
      match r.jsonBody with
      | .error _ => none
      | .ok body =>
        match gemini_text_of body with
        | .error _ => none
        | .ok t =>
          match asStrE t with
          | .error _ => none
          | .ok raw => jsonParse (extract_json_text raw)

/-! ### `make_football_api_call` (API Call Normalizer) -/

/-- The competition-id special case inside the path-parameter loop: for
`param == "id"` on a `/competitions/…` endpoint, uppercase values of length
at most 3, then override through `COMPETITION_CODES` keyed by the lowercased
value; every other parameter is substituted as `str(value)`. -/
def normalize_param_value (endpoint param : String) (value : J) : Except String String :=
  if param == "id" && pyStartsWith endpoint "/competitions/" then do
    let s ← asStrE value
    let s1 := if s.length ≤ 3 then pyUpper s else s
    match lookupTable COMPETITION_CODES (pyLower s1) with
    | some code => pure code
    | none => pure s1
  else pure (pyStr value)

/-- The `for param, value in endpoint_info["params"].items()` loop: normalize,
then `endpoint.replace("{param}", str(value))`, the endpoint evolving across
iterations. -/
def fold_params : String → List (String × J) → Except String String
  | endpoint, [] => pure endpoint
  | endpoint, (param, value) :: rest => do
    let v ← normalize_param_value endpoint param value
    fold_params (endpoint.replace ("\x7b" ++ param ++ "\x7d") v) rest

/-- Filter-value normalization: `date`/`dateFrom`/`dateTo` values (when truthy
strings) are re-parsed against `["%Y-%m-%d", "%d-%m-%Y", "%d/%m/%Y",
"%m/%d/%Y"]` in order and reformatted, silently passing through when no format
parses (and via the bare `except: pass` when the value is not a string);
`status` values are mapped through `STATUS_MAPPING` keyed by the lowercased
value (`AttributeError` propagates for non-string status values). -/
def normalize_filter_value (filter_name : String) (value : J) : Except String J := do
  let value :=
    if (filter_name == "date" || filter_name == "dateFrom" || filter_name == "dateTo")
        && truthy value then
      match value with
      | J.str s =>
        match [Strf.Ymd, Strf.dmY, Strf.dmY_slash, Strf.mdY_slash].findSome?
            (fun f => pyStrptime s f) with
        | some d => J.str (strftime_ymd d)
        | none => value
      | _ => value
    else value
  if filter_name == "status" then do
    let s ← asStrE value
    match lookupTable STATUS_MAPPING (pyLower s) with
    | some v => pure (J.str v)
    | none => pure value
  else pure value

/-- The `for filter_name, value in endpoint_info["filters"].items()` loop,
building the `params` dict passed to `requests.get`. -/
def fold_filters : List (String × J) → List (String × J) → Except String (List (String × J))
  | acc, [] => pure acc
  | acc, (filter_name, value) :: rest => do
    let v ← normalize_filter_value filter_name value
    fold_filters (dictSet acc filter_name v) rest

/-- The pure prefix of `make_football_api_call`: build the URL (with path
parameters substituted) and the normalized query-parameter dict. -/
def build_football_call (endpoint_info : J) : Except String (String × List (String × J)) := do
  let epJ ← pySub endpoint_info "endpoint"
  let hasParams ← pyIn "params" endpoint_info
  let ep2 ←
    (if hasParams then do
      let ps ← pySub endpoint_info "params"
      if truthy ps then do
        let fields ← pyItems ps
        let s0 ← asStrE epJ
        let s1 ← fold_params s0 fields
        pure (J.str s1)
      else pure epJ
    else pure epJ)
  let url := FOOTBALL_BASE_URL ++ pyStr ep2
  let hasFilters ← pyIn "filters" endpoint_info
  let params ←
    (if hasFilters then do
      let fsJ ← pySub endpoint_info "filters"
      if truthy fsJ then do
        let fields ← pyItems fsJ
        fold_filters [] fields
      else pure []
    else pure [])
  pure (url, params)

/-- `make_football_api_call(endpoint_info)`: the whole body is one `try`;
every exception (bad `endpoint_info`, transport failure, 4xx/5xx via
`raise_for_status`, unparseable body) becomes `{"error": str(e)}`. -/
def make_football_api_call (fb : FbOracle) (endpoint_info : J) : J :=
  match build_football_call endpoint_info with
  | .error e => J.obj [("error", J.str e)]
  | .ok built =>
    match fb built.1 (built.2.map (fun kv => (kv.1, pyStr kv.2))) with
    | .error e => J.obj [("error", J.str e)]
    | .ok r =>
      match raise_for_status r with
      | .error e => J.obj [("error", J.str e)]
      | .ok _ =>
        match r.jsonBody with
        | .error e => J.obj [("error", J.str e)]
        | .ok j => j

/-! ### `format_response_with_gemini` (Response Narrator) -/

/-- The `data_str` truncation `data_str[:10000] + "..."`: first 10,000
characters plus an ellipsis (Python slices by characters). -/
def truncate_10k (s : String) : String :=
  if s.length > 10000 then String.mk (s.data.take 10000) ++ "..." else s

def date_prompt_part1 : String :=
  "\n            You are a football chatbot assistant that provides information about football matches.\n            The user asked: \""

def date_prompt_part2 : String :=
  "\"\n            We found the following matches data for the date they mentioned:\n            "

def date_prompt_part3 : String :=
  "\n            Please format this information into a helpful, conversational response for the user.\n            If there\x27s an error or no matches found, explain what might have gone wrong.\n            If matches were found, organize them by competition and include the score if available.\n            Be concise but comprehensive, and present the information in an easy-to-read format.\n            If a specific date was mentioned, include that in your response.\n            "

/-- The `data_type == "date_matches"` prompt: embeds the truncated `data_str`. -/
def date_prompt (query data_str : String) : String :=
  date_prompt_part1 ++ query ++ date_prompt_part2 ++ data_str ++ date_prompt_part3

def api_prompt_part1 : String :=
  "\n            You are a football chatbot assistant that provides information from a football data API.\n            The user asked: \""

def api_prompt_part2 : String :=
  "\"\n            Based on their question, we queried the following API endpoint:\n            "

def api_prompt_part3 : String :=
  "\n            The API returned the following response:\n            "

def api_prompt_part4 : String :=
  "\n            Please format this information into a helpful, conversational response for the user.\n            Focus on directly answering their question with the most relevant information.\n            If there\x27s an error or no relevant data, explain what might have gone wrong.\n            Be concise but comprehensive, and present the information in an easy-to-read format when appropriate.\n            "

/-- The else-branch prompt: embeds `json.dumps(api_response)` directly — not
the truncated `data_str`. -/
def api_prompt (query endpoint_str api_response_str : String) : String :=
  api_prompt_part1 ++ query ++ api_prompt_part2 ++ endpoint_str
    ++ api_prompt_part3 ++ api_response_str ++ api_prompt_part4

def apology_message (e : String) : String :=
  "I\x27m sorry, but I encountered an error processing the football data. Error: " ++ e

/-- `format_response_with_gemini(query, data, data_type)`: one `try` around
everything; the `except` returns the apologetic message embedding the error. -/
def format_response_with_gemini (gm : GmOracle) (query : String) (data : J)
    (data_type : String) : J :=
  let data_str := truncate_10k (json_dumps data)
  let promptE : Except String String :=
    if data_type == "date_matches" then .ok (date_prompt query data_str)
    else do
      let endpoint_info ← jgetD data "endpoint_info" (J.obj [])
      let api_response ← jgetD data "api_response" (J.obj [])
      let ep ← jgetD endpoint_info "endpoint" (J.str "Unknown endpoint")
      pure (api_prompt query (pyStr ep) (json_dumps api_response))
  match promptE with
  | .error e => J.str (apology_message e)
  | .ok prompt =>
    match gm prompt with
    | .error e => J.str (apology_message e)
    | .ok r =>
      match raise_for_status r with
      | .error e => J.str (apology_message e)
      | .ok _ =>
        match r.jsonBody with
        | .error e => J.str (apology_message e)
        | .ok body =>
          match gemini_text_of body with
          | .error e => J.str (apology_message e)
          | .ok v => v

/-! ### `chatbot_response` (Orchestrator) -/

def clarification_message : String :=
  "I\x27m sorry, but I couldn\x27t determine how to process your request. Could you try rephrasing your question?"

/-- `chatbot_response(query)`.  The two Gemini call sites (endpoint resolution
and narration) reach the same remote service in the source; they are passed as
two oracle parameters so that which site is exercised is observable. -/
def chatbot_response (fb : FbOracle) (gm_endpoint gm_format : GmOracle)
    (clock : Clock) (query : String) : Except String J :=
  match handle_date_based_query fb clock.today query with
  | .error e => .error e
  | .ok date_matches =>
    if truthy date_matches then
      .ok (format_response_with_gemini gm_format query date_matches "date_matches")
    else
      match ask_gemini_for_endpoint gm_endpoint clock query with
      | none => .ok (J.str clarification_message)
      | some endpoint_info =>
        if !truthy endpoint_info then .ok (J.str clarification_message)
        else
          .ok (format_response_with_gemini gm_format query
            (J.obj [("endpoint_info", endpoint_info),
                    ("api_response", make_football_api_call fb endpoint_info)])
            "api_response")

/-! ### Spec-side definitions (refinement mirrors)

These follow the specification's wording rather than the source's control
flow; the claim theorems compare them with the definitions above. -/

/-- Spec wording for competition-id normalization: "first uppercase the value
if it is 3 characters or fewer, then attempt to map it (lowercased) through
the Competition Code Table, overriding the uppercased form if a mapping
exists." -/
def spec_competition_id (value : String) : String :=
  let v1 := if value.length ≤ 3 then pyUpper value else value
  match lookupTable COMPETITION_CODES (pyLower v1) with
  | some code => code
  | none => v1

/-- Spec wording for filter normalization: date-named filters are re-parsed
against the four formats in order and reformatted to `YYYY-MM-DD`, else pass
through; `status` maps through the Status Table lowercased, else passes
through; every other filter passes through untouched. -/
def spec_normalize_filter (name value : String) : String :=
  if name = "date" ∨ name = "dateFrom" ∨ name = "dateTo" then
    match [Strf.Ymd, Strf.dmY, Strf.dmY_slash, Strf.mdY_slash].findSome?
        (fun f => pyStrptime value f) with
    | some d => strftime_ymd d
    | none => value
  else if name = "status" then
    match lookupTable STATUS_MAPPING (pyLower value) with
    | some v => v
    | none => value
  else value

/-- The pattern/format association as the spec states it: `YYYY-MM-DD`,
`DD-MM-YYYY`, `DD/MM/YYYY`, `DD/MM/YY`, in that fixed order. -/
def spec_pattern_table : List (DatePat × Strf) :=
  [(.ymd, .Ymd), (.dmy_dash, .dmY), (.dmy_slash4, .dmY_slash), (.dmy_slash2, .dmy_slash)]

/-- Spec wording for the explicit-date scan: the first pattern whose first
match in the query also parses under its exact associated format wins and is
returned normalized with kind `"specific"`; a pattern that matches but fails
to parse is skipped in favour of the next; absent if none succeeds. -/
def spec_explicit_scan_aux : List (DatePat × Strf) → String → Option String × Option String
  | [], _ => (none, none)
  | (p, f) :: rest, query =>
    match searchToks (patToks p) query.data with
    | none => spec_explicit_scan_aux rest query
    | some m =>
      match pyStrptime (String.mk m) f with
      | some d => (some (strftime_ymd d), some "specific")
      | none => spec_explicit_scan_aux rest query

def spec_explicit_scan (query : String) : Option String × Option String :=
  spec_explicit_scan_aux spec_pattern_table query

/-- A well-formed raw match record, parameterized by its required fields and
an optional `score.fullTime` pair. -/
structure RecS where
  comp : String
  home : String
  away : String
  st : String
  dt : String
  score : Option (J × J)

/-- Build the raw JSON record the data provider would return for `r`. -/
def mkRecord (r : RecS) : J :=
  J.obj ([("competition", J.obj [("name", J.str r.comp)]),
          ("homeTeam", J.obj [("shortName", J.str r.home)]),
          ("awayTeam", J.obj [("shortName", J.str r.away)]),
          ("status", J.str r.st),
          ("utcDate", J.str r.dt)] ++
         (match r.score with
          | some hv => [("score", J.obj [("fullTime",
              J.obj [("home", hv.1), ("away", hv.2)])])]
          | none => []))

/-- The score string the code produces for a record (amended rule): the
f-string of the two full-time values when a `score` key exists and the home
value is not null — the away value rendered as-is, null printing `None` —
else the literal `Not played yet`. -/
def amended_score (score : Option (J × J)) : String :=
  match score with
  | some (J.null, _) => "Not played yet"
  | some (h, a) => pyStr h ++ " - " ++ pyStr a
  | none => "Not played yet"

/-- The Match Summary the formatter derives from `r`. -/
def expected_summary (r : RecS) : J :=
  J.obj [("competition", J.str r.comp), ("homeTeam", J.str r.home),
         ("awayTeam", J.str r.away), ("status", J.str r.st),
         ("date", J.str r.dt), ("score", J.str (amended_score r.score))]

/-! ### Concrete fixtures for witnesses and counterexamples -/

def now0 : Date := ⟨2025, 3, 4⟩

def clock0 : Clock := ⟨now0, "2025-03-04 12:00:00"⟩

/-- The Gemini REST envelope around a model text reply:
`{"candidates": [{"content": {"parts": [{"text": t}]}}]}`. -/
def geminiWrap (t : String) : J :=
  J.obj [("candidates",
    J.arr [J.obj [("content",
      J.obj [("parts",
        J.arr [J.obj [("text", J.str t)]])])]])]

/-- A 200 response with the given JSON body. -/
def okResp (j : J) : HttpResp := ⟨200, .ok j, ""⟩

/-- Football oracle returning an empty `matches` list. -/
def fb_empty : FbOracle := fun _ _ => .ok (okResp (J.obj [("matches", J.arr [])]))

/-- Football oracle raising a transport exception. -/
def fb_down : FbOracle := fun _ _ => .error "Connection aborted"

/-- Football oracle answering 404 to everything. -/
def fb_404 : FbOracle := fun _ _ => .ok ⟨404, .ok J.null, "Not found"⟩

/-- Gemini oracle resolving every query to the `/matches` endpoint. -/
def gm_resolver : GmOracle :=
  fun _ => .ok (okResp (geminiWrap "\x7b\"endpoint\": \"/matches\"\x7d"))

/-- Gemini oracle whose reply text is prose without fences or braces. -/
def gm_prose : GmOracle := fun _ => .ok (okResp (geminiWrap "no json here at all"))

/-- Gemini oracle whose reply text is a bare JSON array — no fenced block and
no brace anywhere. -/
def gm_bare_array : GmOracle := fun _ => .ok (okResp (geminiWrap "[1, 2]"))

/-- Gemini oracle echoing the prompt back as the model text, making the
narrator's prompt observable as its return value. -/
def gm_echo : GmOracle := fun p => .ok (okResp (geminiWrap p))

/-- A 10,100-character string. -/
def big_str : String := String.mk (List.replicate 10100 'a')

/-- A serialized payload of more than 10,000 characters. -/
def big_api_response : J := J.str big_str

/-- An orchestrator payload whose `api_response` alone serializes past the
truncation threshold. -/
def big_payload : J :=
  J.obj [("endpoint_info", J.obj [("endpoint", J.str "/matches")]),
         ("api_response", big_api_response)]

/-- The fixed error object of the Match Formatter. -/
def errObj : J := J.obj [("error", J.str "No matches found or error in data")]

/-- A raw match record whose full-time home score is 2 but whose away score is
null — the input separating the code's score rule from the claimed one. -/
def c4_record : RecS :=
  ⟨"Premier League", "Arsenal", "Chelsea", "IN_PLAY", "2025-03-04T20:00:00Z",
   some (J.num 2, J.null)⟩

def c4_input : J := J.obj [("matches", J.arr [mkRecord c4_record])]

/-! ### Supporting lemmas -/

theorem strftime_ymd_ne_empty (d : Date) : strftime_ymd d ≠ "" := by
  intro h
  have hlen := congrArg String.length h
  simp [strftime_ymd, String.length_append] at hlen
  exact absurd hlen.1.2 (by decide)

theorem dictSet_ne_nil (l : List (String × J)) (k : String) (v : J) :
    dictSet l k v ≠ [] := by
  cases l with
  | nil => simp [dictSet]
  | cons a t =>
    obtain ⟨k0, v0⟩ := a
    simp only [dictSet]
    split <;> simp

theorem dictSet_cons (a : String × J) (l : List (String × J)) (k : String) (v : J) :
    ∃ hd tl, dictSet (a :: l) k v = hd :: tl := by
  obtain ⟨k0, v0⟩ := a
  simp only [dictSet]
  split
  · exact ⟨_, _, rfl⟩
  · exact ⟨_, _, rfl⟩

theorem hasField_ne_nil {l : List (String × J)} {k : String}
    (h : hasField l k = true) : l ≠ [] := by
  intro hl
  subst hl
  simp [hasField, lookupField] at h

theorem format_one_match_mkRecord (r : RecS) :
    format_one_match (mkRecord r) = .ok (expected_summary r) := by
  obtain ⟨comp, home, away, st, dt, score⟩ := r
  cases score with
  | none => rfl
  | some hv =>
    obtain ⟨h, a⟩ := hv
    cases h <;> rfl

theorem mapExcept_mkRecord (rs : List RecS) :
    mapExcept format_one_match (rs.map mkRecord) = .ok (rs.map expected_summary) := by
  induction rs with
  | nil => rfl
  | cons r rs ih =>
    simp only [List.map_cons, mapExcept, format_one_match_mkRecord, ih]

theorem try_date_patterns_fst (ps : List DatePat) (query : String) (ds : String)
    (h : (try_date_patterns ps query).1 = some ds) : ∃ d, ds = strftime_ymd d := by
  induction ps with
  | nil => simp [try_date_patterns] at h
  | cons p rest ih =>
    rw [try_date_patterns] at h
    cases hs : searchToks (patToks p) query.data with
    | none =>
      simp only [hs] at h
      exact ih h
    | some m =>
      simp only [hs] at h
      cases hp : strptime_for_pattern p (String.mk m) with
      | none =>
        simp only [hp] at h
        exact ih h
      | some d =>
        simp only [hp] at h
        simp at h
        exact ⟨d, h.symm⟩

theorem parse_fst_ne_empty (now : Date) (query : String) (ds : String)
    (h : (parse_date_from_query now query).1 = some ds) : ds ≠ "" := by
  rw [parse_date_from_query] at h
  cases hf : TIME_KEYWORDS.find? (fun kv => strContains (pyLower query) kv.1) with
  | some kv =>
    simp only [hf] at h
    simp at h
    rw [← h]
    exact strftime_ymd_ne_empty _
  | none =>
    simp only [hf] at h
    obtain ⟨d, hd⟩ := try_date_patterns_fst _ _ _ h
    rw [hd]
    exact strftime_ymd_ne_empty _

theorem format_matches_data_shape (md : J) :
    (∃ e, format_matches_data md = .error e)
    ∨ (∃ a l, format_matches_data md = .ok (J.obj (a :: l))) := by
  cases hg : fmd_guard md with
  | error e => exact Or.inl ⟨e, by simp [format_matches_data, hg]⟩
  | ok b =>
    cases b with
    | true =>
      exact Or.inr ⟨("error", J.str "No matches found or error in data"), [],
        by simp [format_matches_data, hg]⟩
    | false =>
      cases hs : pySub md "matches" with
      | error e => exact Or.inl ⟨e, by simp [format_matches_data, hg, hs]⟩
      | ok msJ =>
        cases hi : pyIter msJ with
        | error e => exact Or.inl ⟨e, by simp [format_matches_data, hg, hs, hi]⟩
        | ok ms =>
          cases hmp : mapExcept format_one_match ms with
          | error e =>
            exact Or.inl ⟨e, by simp [format_matches_data, hg, hs, hi, hmp]⟩
          | ok fs =>
            exact Or.inr ⟨("matches", J.arr fs), [("count", J.num fs.length)],
              by simp [format_matches_data, hg, hs, hi, hmp]⟩

theorem handle_shape (fb : FbOracle) (now : Date) (query : String)
    (ds : String) (dt : Option String)
    (hp : parse_date_from_query now query = (some ds, dt)) (hds : ds ≠ "") :
    (∃ e, handle_date_based_query fb now query = .error e)
    ∨ (∃ a l, handle_date_based_query fb now query = .ok (J.obj (a :: l))) := by
  unfold handle_date_based_query
  rw [hp]
  cases hgm : get_matches_by_date fb ds with
  | error e => exact Or.inl ⟨e, by simp [hds, hgm]⟩
  | ok md =>
    rcases format_matches_data_shape md with ⟨e, hfe⟩ | ⟨a, l, hfo⟩
    · exact Or.inl ⟨e, by simp [hds, hgm, hfe]⟩
    · cases hrel : (dt == some "relative") with
      | true =>
        cases hfind : TIME_KEYWORDS.find? (fun kv => strContains (pyLower query) kv.1) with
        | some kv =>
          obtain ⟨hd, tl, hcons⟩ := dictSet_cons a l "date_context" (J.str kv.1)
          exact Or.inr ⟨hd, tl, by simp [hds, hgm, hfo, hrel, hfind, jsetE, hcons]⟩
        | none =>
          exact Or.inr ⟨a, l, by simp [hds, hgm, hfo, hrel, hfind]⟩
      | false =>
        obtain ⟨hd, tl, hcons⟩ := dictSet_cons a l "date_context" (J.str ds)
        exact Or.inr ⟨hd, tl, by simp [hds, hgm, hfo, hrel, jsetE, hcons]⟩

theorem string_mk_length (l : List Char) : (String.mk l).length = l.length := rfl

theorem big_str_len : big_str.length = 10100 := by
  show (List.replicate 10100 'a').length = 10100
  exact List.length_replicate 10100 'a'

theorem escape_big : json_escape big_str = big_str := by
  unfold json_escape
  rw [if_pos]
  apply List.all_eq_true.mpr
  intro c hc
  have hca : c = 'a' := List.eq_of_mem_replicate hc
  subst hca
  decide

theorem dumps_big_len : (json_dumps big_api_response).length = 10102 := by
  have hd : json_dumps big_api_response = "\"" ++ json_escape big_str ++ "\"" := rfl
  rw [hd, escape_big, String.length_append, String.length_append, big_str_len]
  decide

theorem trunc_big_ne :
    truncate_10k (json_dumps big_api_response) ≠ json_dumps big_api_response := by
  intro hcon
  have hlen := congrArg String.length hcon
  rw [truncate_10k, dumps_big_len] at hlen
  norm_num at hlen
  rw [dumps_big_len] at hlen
  rw [show ("...".length = 3) from rfl] at hlen
  omega

theorem intercalate_pair (a b : String) :
    String.intercalate ", " [a, b] = a ++ ", " ++ b := rfl

theorem dumps_payload_len : (json_dumps big_payload).length > 10000 := by
  have hd : json_dumps big_payload
      = "\x7b" ++ String.intercalate ", "
          ["\"" ++ json_escape "endpoint_info" ++ "\": "
             ++ json_dumps (J.obj [("endpoint", J.str "/matches")]),
           "\"" ++ json_escape "api_response" ++ "\": " ++ json_dumps big_api_response]
        ++ "\x7d" := rfl
  rw [hd, intercalate_pair]
  simp only [String.length_append]
  rw [dumps_big_len]
  omega

/-! ### Claim theorems -/

/-- C1: for every query for which the Date Extractor returns a date, the
Orchestrator's answer is the Direct Date Path result narrated with mode
`"date_matches"`; the right-hand side does not mention the endpoint-resolver
oracle `gm_end`, which is universally quantified in the conclusion, so the
Endpoint Resolver is never invoked. -/
theorem c1_direct_date_path_precedence (fb : FbOracle) (gm_fmt : GmOracle)
    (clock : Clock) (query : String) (ds : String)
    (h : (parse_date_from_query clock.today query).1 = some ds) :
    ∀ gm_end : GmOracle,
      chatbot_response fb gm_end gm_fmt clock query
        = Except.map
            (fun dm => format_response_with_gemini gm_fmt query dm "date_matches")
            (handle_date_based_query fb clock.today query) := by
  intro gm_end
  have hds : ds ≠ "" := parse_fst_ne_empty _ _ _ h
  have hp : parse_date_from_query clock.today query
      = (some ds, (parse_date_from_query clock.today query).2) := by
    rw [← h]
  rcases handle_shape fb clock.today query ds _ hp hds with ⟨e, he⟩ | ⟨a, l, hl⟩
  · rw [chatbot_response, he]
    rfl
  · rw [chatbot_response, hl]
    have ht : truthy (J.obj (a :: l)) = true := by simp [truthy]
    simp [ht, Except.map]

theorem c1_witness :
    chatbot_response fb_empty gm_resolver gm_echo clock0 "matches today"
      = Except.map
          (fun dm => format_response_with_gemini gm_echo "matches today" dm "date_matches")
          (handle_date_based_query fb_empty clock0.today "matches today") :=
  c1_direct_date_path_precedence fb_empty gm_echo clock0 "matches today"
    "2025-03-04" (by rfl) gm_resolver

/-- C2: a query containing a relative keyword (case-insensitively) resolves to
the current date plus that keyword's offset, formatted `YYYY-MM-DD`, with kind
`"relative"` — regardless of any explicit date substring, since the explicit
patterns are never reached; earlier table entries take precedence. -/
theorem c2_relative_keyword_extraction (now : Date) (query : String) :
    (strContains (pyLower query) "yesterday" = true →
      parse_date_from_query now query
        = (some (strftime_ymd (addDays now (-1))), some "relative"))
    ∧ (strContains (pyLower query) "yesterday" = false →
       strContains (pyLower query) "today" = true →
      parse_date_from_query now query
        = (some (strftime_ymd (addDays now 0)), some "relative"))
    ∧ (strContains (pyLower query) "yesterday" = false →
       strContains (pyLower query) "today" = false →
       strContains (pyLower query) "tomorrow" = true →
      parse_date_from_query now query
        = (some (strftime_ymd (addDays now 1)), some "relative")) := by
  refine ⟨fun h1 => ?_, fun h1 h2 => ?_, fun h1 h2 h3 => ?_⟩
  · simp [parse_date_from_query, TIME_KEYWORDS, List.find?, h1]
  · simp [parse_date_from_query, TIME_KEYWORDS, List.find?, h1, h2]
  · simp [parse_date_from_query, TIME_KEYWORDS, List.find?, h1, h2, h3]

theorem c2_witness :
    parse_date_from_query now0 "What happened YESTERDAY?"
      = (some "2025-03-03", some "relative")
    ∧ parse_date_from_query now0 "matches today"
      = (some "2025-03-04", some "relative")
    ∧ parse_date_from_query now0 "Fixtures TOMORROW, not 2024-05-05"
      = (some "2025-03-05", some "relative") := by
  refine ⟨?_, ?_, ?_⟩
  · rw [(c2_relative_keyword_extraction now0 "What happened YESTERDAY?").1 (by decide)]
    rfl
  · rw [(c2_relative_keyword_extraction now0 "matches today").2.1 (by decide) (by decide)]
    rfl
  · rw [(c2_relative_keyword_extraction now0 "Fixtures TOMORROW, not 2024-05-05").2.2
      (by decide) (by decide) (by decide)]
    rfl

/-- C3: with no relative keyword present, the extractor equals the spec's
explicit scan: patterns tried in the fixed order `YYYY-MM-DD`, `DD-MM-YYYY`,
`DD/MM/YYYY`, `DD/MM/YY`; the first whose first match parses under its exact
format wins, normalized with kind `"specific"`; a matching-but-unparseable
substring (like `2023-13-45`) is skipped; absent when nothing succeeds. -/
theorem c3_explicit_pattern_scan :
    (∀ (now : Date) (query : String),
      strContains (pyLower query) "yesterday" = false →
      strContains (pyLower query) "today" = false →
      strContains (pyLower query) "tomorrow" = false →
      parse_date_from_query now query = spec_explicit_scan query)
    ∧ (∀ now : Date,
        parse_date_from_query now "standings on 2023-13-45 please" = (none, none))
    ∧ (∀ now : Date,
        parse_date_from_query now "score on 31-12-2023"
          = (some "2023-12-31", some "specific"))
    ∧ (∀ now : Date,
        parse_date_from_query now "fixtures 04/03/25 evening"
          = (some "2025-03-04", some "specific")) := by
  refine ⟨fun now query h1 h2 h3 => ?_, fun now => rfl, fun now => rfl, fun now => rfl⟩
  simp only [parse_date_from_query, TIME_KEYWORDS, List.find?, h1, h2, h3]
  rfl

theorem c3_witness :
    parse_date_from_query now0 "report for 2024-02-29, thanks"
      = spec_explicit_scan "report for 2024-02-29, thanks"
    ∧ spec_explicit_scan "report for 2024-02-29, thanks"
      = (some "2024-02-29", some "specific") :=
  ⟨c3_explicit_pattern_scan.1 now0 "report for 2024-02-29, thanks"
    (by decide) (by decide) (by decide), rfl⟩

/-- C4 counterexample: a record whose full-time home score is 2 but whose away
score is null. Both scores are not "present and non-null", so the claim
requires the literal `Not played yet`, but the formatter — which checks only
the home value — emits the f-string `"2 - None"`. -/
theorem c4_counterexample :
    format_matches_data c4_input
      = .ok (J.obj [("matches", J.arr [J.obj
          [("competition", J.str "Premier League"), ("homeTeam", J.str "Arsenal"),
           ("awayTeam", J.str "Chelsea"), ("status", J.str "IN_PLAY"),
           ("date", J.str "2025-03-04T20:00:00Z"), ("score", J.str "2 - None")]]),
          ("count", J.num 1)])
    ∧ ("2 - None" : String) ≠ "Not played yet" :=
  ⟨rfl, by decide⟩

/-- C4 (amended): the formatter returns the fixed error object when the input
is absent/falsy, lacks a `matches` key, or carries an `error` key; otherwise
it returns `{matches, count}` with `count` the number of records, where each
record's score is `"home - away"` when a `score` key exists and the full-time
*home* value is non-null (the away value rendered as-is, null printing
`None`), else the literal `Not played yet`. -/
theorem c4_formatter_amended :
    (∀ md : J, truthy md = false → format_matches_data md = .ok errObj)
    ∧ (∀ l : List (String × J), hasField l "matches" = false →
        format_matches_data (J.obj l) = .ok errObj)
    ∧ (∀ l : List (String × J), hasField l "error" = true →
        format_matches_data (J.obj l) = .ok errObj)
    ∧ (∀ rs : List RecS,
        format_matches_data (J.obj [("matches", J.arr (rs.map mkRecord))])
          = .ok (J.obj [("matches", J.arr (rs.map expected_summary)),
                        ("count", J.num rs.length)])) := by
  refine ⟨fun md h => ?_, fun l h => ?_, fun l h => ?_, fun rs => ?_⟩
  · simp [format_matches_data, fmd_guard, h, errObj]
  · cases ht : truthy (J.obj l) <;>
      simp [format_matches_data, fmd_guard, pyIn, ht, h, errObj]
  · have hnil : l ≠ [] := hasField_ne_nil h
    have ht : truthy (J.obj l) = true := by
      simp [truthy, hnil]
    cases hm : hasField l "matches" <;>
      simp [format_matches_data, fmd_guard, pyIn, ht, hm, h, errObj]
  · have hm := mapExcept_mkRecord rs
    simp [format_matches_data, fmd_guard, pyIn, pySub, pyIter, hasField,
      lookupField, truthy, hm]

theorem c4_witness :
    format_matches_data J.null = .ok errObj
    ∧ format_matches_data (J.obj [("error", J.str "API Error: 500")]) = .ok errObj
    ∧ format_matches_data
        (J.obj [("matches",
          J.arr [mkRecord ⟨"PL", "H", "A", "FINISHED", "D", some (J.num 2, J.num 1)⟩])])
        = .ok (J.obj [("matches",
            J.arr [expected_summary ⟨"PL", "H", "A", "FINISHED", "D",
              some (J.num 2, J.num 1)⟩]),
            ("count", J.num 1)]) := by
  refine ⟨c4_formatter_amended.1 J.null (by rfl),
    c4_formatter_amended.2.2.1 _ (by rfl), ?_⟩
  have h := c4_formatter_amended.2.2.2
    [⟨"PL", "H", "A", "FINISHED", "D", some (J.num 2, J.num 1)⟩]
  simpa using h

/-- C5: on a `/competitions/…` endpoint, the `id` path parameter is first
uppercased when at most 3 characters, then overridden through the Competition
Code Table keyed by its lowercased form — exactly the spec's rule; `PL` stays
`PL`, `Premier League` and `premier league` map to `PL`, and an unknown
3-letter code passes through uppercased. -/
theorem c5_competition_id_normalization :
    (∀ (endpoint value : String),
      pyStartsWith endpoint "/competitions/" = true →
      normalize_param_value endpoint "id" (J.str value)
        = .ok (spec_competition_id value))
    ∧ spec_competition_id "PL" = "PL"
    ∧ spec_competition_id "Premier League" = "PL"
    ∧ spec_competition_id "premier league" = "PL"
    ∧ spec_competition_id "XYZ" = "XYZ" := by
  refine ⟨fun endpoint value h => ?_, by decide, by decide, by decide, by decide⟩
  simp only [normalize_param_value, h, Bool.and_true, spec_competition_id,
    asStrE, Bind.bind, Except.bind]
  cases hlt : lookupTable COMPETITION_CODES
      (pyLower (if value.length ≤ 3 then pyUpper value else value)) <;>
    simp [hlt, pure, Except.pure]

theorem c5_witness :
    normalize_param_value "/competitions/\x7bid\x7d" "id" (J.str "Premier League")
      = .ok "PL"
    ∧ normalize_param_value "/competitions/\x7bid\x7d/standings" "id" (J.str "PL")
      = .ok "PL" := by
  constructor
  · rw [c5_competition_id_normalization.1 "/competitions/\x7bid\x7d" "Premier League"
      (by decide)]
    rfl
  · rw [c5_competition_id_normalization.1 "/competitions/\x7bid\x7d/standings" "PL"
      (by decide)]
    rfl

/-- C6: filter normalization — `date`/`dateFrom`/`dateTo` values are re-parsed
against `%Y-%m-%d`, `%d-%m-%Y`, `%d/%m/%Y`, `%m/%d/%Y` in order and the first
parse is reformatted to `YYYY-MM-DD`, unchanged when none parse; `status`
values map through the Status Table lowercased, unchanged when unmapped; every
other filter passes through untouched — equal to the spec's rule on every
filter name and string value. -/
theorem c6_filter_normalization :
    (∀ (name value : String),
      normalize_filter_value name (J.str value)
        = .ok (J.str (spec_normalize_filter name value)))
    ∧ spec_normalize_filter "date" "04/03/2025" = "2025-03-04"
    ∧ spec_normalize_filter "status" "finished" = "FINISHED"
    ∧ spec_normalize_filter "status" "weird" = "weird"
    ∧ spec_normalize_filter "season" "2023" = "2023" := by
  refine ⟨fun name value => ?_, by decide, by decide, by decide, by decide⟩
  by_cases hd : (name == "date" || name == "dateFrom" || name == "dateTo") = true
  · have hd' : name = "date" ∨ name = "dateFrom" ∨ name = "dateTo" := by
      simpa [beq_iff_eq, or_assoc] using hd
    by_cases hv : value = ""
    · subst hv
      rcases hd' with h | h | h <;> subst h <;> rfl
    · have hemp : value.isEmpty = false := by
        cases hemp0 : value.isEmpty
        · rfl
        · exact absurd ((String.isEmpty_iff value).mp hemp0) hv
      have htr : truthy (J.str value) = true := by simp [truthy, hemp]
      rcases hd' with h | h | h <;> subst h <;>
        simp only [normalize_filter_value, spec_normalize_filter, htr] <;>
        cases hfs : [Strf.Ymd, Strf.dmY, Strf.dmY_slash, Strf.mdY_slash].findSome?
            (fun f => pyStrptime value f) <;>
        simp [hfs, pure, Except.pure]
  · have hdf : (name == "date" || name == "dateFrom" || name == "dateTo") = false := by
      simpa using hd
    have hn : ¬(name = "date" ∨ name = "dateFrom" ∨ name = "dateTo") := by
      intro hcon
      rcases hcon with h | h | h <;> subst h <;> simp at hdf
    by_cases hs : name = "status"
    · subst hs
      simp only [normalize_filter_value, spec_normalize_filter, hdf, asStrE,
        Bool.false_and, Bind.bind, Except.bind]
      cases hls : lookupTable STATUS_MAPPING (pyLower value) <;>
        simp [hls, pure, Except.pure, hn]
    · simp [normalize_filter_value, spec_normalize_filter, hdf, hn, hs,
        beq_iff_eq, asStrE, pure, Except.pure]

/-- C7 counterexample: a model reply that is a bare JSON array — it contains
neither a fenced ```json block nor any brace, yet resolution does NOT return
absent: the raw text itself is parsed as JSON and succeeds, refuting the claim
that resolution returns absent whenever neither extraction form is found. -/
theorem c7_counterexample :
    strContains "[1, 2]" "```json" = false
    ∧ strContains "[1, 2]" "\x7b" = false
    ∧ ask_gemini_for_endpoint gm_bare_array clock0 "which teams play?"
        = some (J.arr [J.num 1, J.num 2]) :=
  ⟨by decide, by decide, rfl⟩

/-- C7 (amended): the resolver extracts a fenced ```json block first, else the
first top-level brace span, and otherwise falls back to the raw reply text;
resolution equals the JSON parse of the chosen text — so it returns absent
exactly when that parse (or an earlier step) fails, not merely when neither
extraction form is found — and when it returns absent the Orchestrator
returns the fixed clarification-request message instead of calling the API
(the conclusion holds for every football oracle `fb`). -/
theorem c7_resolver_amended (gm : GmOracle) (fb : FbOracle) (gm_fmt : GmOracle)
    (clock : Clock) (query : String) (txt : String)
    (hg : gm (ask_prompt clock.stamp query) = .ok (okResp (geminiWrap txt))) :
    ask_gemini_for_endpoint gm clock query = jsonParse (extract_json_text txt)
    ∧ (ask_gemini_for_endpoint gm clock query = none →
        (parse_date_from_query clock.today query).1 = none →
        chatbot_response fb gm gm_fmt clock query
          = .ok (J.str clarification_message)) := by
  have h1 : ask_gemini_for_endpoint gm clock query
      = jsonParse (extract_json_text txt) := by
    unfold ask_gemini_for_endpoint
    rw [hg]
    rfl
  refine ⟨h1, fun hnone hnodate => ?_⟩
  have hpn : parse_date_from_query clock.today query
      = (none, (parse_date_from_query clock.today query).2) := by
    rw [← hnodate]
  have hh : handle_date_based_query fb clock.today query = .ok J.null := by
    unfold handle_date_based_query
    rw [hpn]
  rw [chatbot_response, hh]
  simp [truthy, hnone]

theorem c7_witness :
    ask_gemini_for_endpoint gm_prose clock0 "erm?" = none
    ∧ chatbot_response fb_empty gm_prose gm_echo clock0 "erm?"
        = .ok (J.str clarification_message) := by
  have h := c7_resolver_amended gm_prose fb_empty gm_echo clock0 "erm?"
    "no json here at all" rfl
  have hn : ask_gemini_for_endpoint gm_prose clock0 "erm?" = none := by
    rw [h.1]
    rfl
  exact ⟨hn, h.2 hn (by rfl)⟩

/-- C8: on the resolver path, a transport exception or a 4xx/5xx status during
the normalizer's API call is caught and becomes a returned `{error: message}`
object — never a propagated exception — and the orchestrator still forwards
exactly that payload (under `api_response`, beside `endpoint_info`) into the
narration step with mode `"api_response"` instead of aborting the query. -/
theorem c8_error_conversion_and_forwarding (fb : FbOracle) (gm gm_fmt : GmOracle)
    (clock : Clock) (query : String) (info : J) (e : String)
    (hnodate : (parse_date_from_query clock.today query).1 = none)
    (hres : ask_gemini_for_endpoint gm clock query = some info)
    (ht : truthy info = true) :
    (∀ u ps, build_football_call info = .ok (u, ps) →
      fb u (ps.map (fun kv => (kv.1, pyStr kv.2))) = .error e →
      make_football_api_call fb info = J.obj [("error", J.str e)])
    ∧ (∀ u ps r, build_football_call info = .ok (u, ps) →
      fb u (ps.map (fun kv => (kv.1, pyStr kv.2))) = .ok r →
      400 ≤ r.status → r.status < 600 →
      make_football_api_call fb info
        = J.obj [("error", J.str (http_error_msg r.status))])
    ∧ chatbot_response fb gm gm_fmt clock query
        = .ok (format_response_with_gemini gm_fmt query
            (J.obj [("endpoint_info", info),
                    ("api_response", make_football_api_call fb info)])
            "api_response") := by
  refine ⟨fun u ps hb hf => ?_, fun u ps r hb hf h4 h6 => ?_, ?_⟩
  · unfold make_football_api_call
    rw [hb]
    simp only []
    rw [hf]
  · unfold make_football_api_call
    rw [hb]
    simp only []
    rw [hf]
    simp [raise_for_status, h4, h6]
  · have hpn : parse_date_from_query clock.today query
        = (none, (parse_date_from_query clock.today query).2) := by
      rw [← hnodate]
    have hh : handle_date_based_query fb clock.today query = .ok J.null := by
      unfold handle_date_based_query
      rw [hpn]
    rw [chatbot_response, hh]
    simp [hres, ht, show truthy J.null = false from rfl]

theorem c8_witness :
    make_football_api_call fb_down (J.obj [("endpoint", J.str "/matches")])
      = J.obj [("error", J.str "Connection aborted")]
    ∧ make_football_api_call fb_404 (J.obj [("endpoint", J.str "/matches")])
      = J.obj [("error", J.str (http_error_msg 404))]
    ∧ chatbot_response fb_down gm_resolver gm_echo clock0 "top scorers"
        = .ok (format_response_with_gemini gm_echo "top scorers"
            (J.obj [("endpoint_info", J.obj [("endpoint", J.str "/matches")]),
                    ("api_response", make_football_api_call fb_down
                      (J.obj [("endpoint", J.str "/matches")]))])
            "api_response") := by
  have h1 := c8_error_conversion_and_forwarding fb_down gm_resolver gm_echo clock0
    "top scorers" (J.obj [("endpoint", J.str "/matches")]) "Connection aborted"
    (by rfl) (by rfl) (by rfl)
  have h2 := c8_error_conversion_and_forwarding fb_404 gm_resolver gm_echo clock0
    "top scorers" (J.obj [("endpoint", J.str "/matches")]) "unused"
    (by rfl) (by rfl) (by rfl)
  exact ⟨h1.1 (FOOTBALL_BASE_URL ++ "/matches") [] rfl rfl,
    h2.2.1 (FOOTBALL_BASE_URL ++ "/matches") [] ⟨404, .ok J.null, "Not found"⟩
      rfl rfl (by decide) (by decide),
    h1.2.2⟩

/-- C9 (divergence at the failing input): in mode `"date_matches"` the prompt
does embed the truncated serialization, but in mode `"api_response"` the
prompt embeds `json.dumps(api_response)` untruncated — at a payload whose
serialization exceeds 10,000 characters the narrator's prompt carries all
10,102 characters of it, though the claimed truncation would have changed it. -/
theorem c9_truncation_divergence :
    (∀ (query : String) (data : J),
      format_response_with_gemini gm_echo query data "date_matches"
        = J.str (date_prompt query (truncate_10k (json_dumps data))))
    ∧ format_response_with_gemini gm_echo "q" big_payload "api_response"
        = J.str (api_prompt "q" "/matches" (json_dumps big_api_response))
    ∧ (json_dumps big_payload).length > 10000
    ∧ (json_dumps big_api_response).length > 10000
    ∧ truncate_10k (json_dumps big_api_response) ≠ json_dumps big_api_response :=
  ⟨fun _ _ => rfl, rfl, dumps_payload_len, by rw [dumps_big_len]; omega, trunc_big_ne⟩

/-- C10: when a query contains several relative keywords, the fixed table
order `yesterday`, `today`, `tomorrow` decides — not the position in the
query — so any query containing both `today` and `yesterday` (any casing)
yields yesterday's date with kind `"relative"`. -/
theorem c10_keyword_table_order (now : Date) (query : String)
    (ht : strContains (pyLower query) "today" = true)
    (hy : strContains (pyLower query) "yesterday" = true) :
    parse_date_from_query now query
      = (some (strftime_ymd (addDays now (-1))), some "relative") := by
  simp [parse_date_from_query, TIME_KEYWORDS, List.find?, hy]

theorem c10_witness :
    parse_date_from_query now0 "was that Today or YESTERDAY?"
      = (some "2025-03-03", some "relative") := by
  rw [c10_keyword_table_order now0 "was that Today or YESTERDAY?"
    (by decide) (by decide)]
  rfl
